import Mathlib

/-!
Shallow embedding of a two-variant Go note-taking web application.

Namespace `Simple` embeds the handlers of `src/main.go`; namespace
`Paginated` embeds the handlers of the second source file (paginated
listing, update handler).  Storage is the SQLite table
`notes(id INTEGER PRIMARY KEY AUTOINCREMENT, title TEXT NOT NULL,
content TEXT NOT NULL)`, modelled as the list of rows in rowid
(insertion) order together with the next AUTOINCREMENT id.  Handlers the
claims never touch (the static add form, the update form page, the back
redirect) are omitted.  Driver-level I/O failures that the code routes
to a 500 response are modelled by explicit `Option String` error
parameters (`none` in a run where storage works).
-/

namespace NotesApp

/-- A row of the `notes` table (the `Note` struct of both Go files). -/
structure Note where
  id : Int
  title : String
  content : String
deriving DecidableEq

/-- The `notes` table: rows in rowid (insertion) order, plus the next
AUTOINCREMENT id SQLite would assign. -/
structure DB where
  rows : List Note
  nextId : Int
deriving DecidableEq

/-- The freshly created table of `initDB`; AUTOINCREMENT ids start at 1. -/
def emptyDB : DB := { rows := [], nextId := 1 }

/-- Well-formedness of a table state: the next AUTOINCREMENT id is
positive and strictly above every stored id, and stored ids are
pairwise distinct.  Every state reachable from `emptyDB` satisfies it. -/
def DB.WF (db : DB) : Prop :=
  1 ≤ db.nextId ∧ (∀ n ∈ db.rows, n.id < db.nextId) ∧ (db.rows.map Note.id).Nodup

/-- Numeric value of a list of decimal digit characters, read left to
right (the accumulator loop shared by `strconv.Atoi` and SQLite's text
to number conversion). -/
def digitsVal (l : List Char) : Nat :=
  l.foldl (fun a c => a * 10 + (c.toNat - 48)) 0

/-- `true` iff `l` is a non-empty list of decimal digits. -/
def allDigits (l : List Char) : Bool :=
  !l.isEmpty && l.all Char.isDigit

/-- Parse an optionally signed decimal integer literal: an optional
`+`/`-` sign followed by at least one digit, nothing else.  Used for
Go's `strconv.Atoi` (with the int64 range check added in `goAtoi`) and
for SQLite's INTEGER-affinity conversion of a TEXT parameter compared
against the `id` column. -/
def parseDec : List Char → Option Int
  | [] => none
  | c :: rest =>
    if c = '+' then if allDigits rest then some (digitsVal rest) else none
    else if c = '-' then if allDigits rest then some (-(digitsVal rest : Int)) else none
    else if allDigits (c :: rest) then some (digitsVal (c :: rest)) else none

/-- Go's `strconv.Atoi`: signed decimal; `none` (an error in Go) on an
empty string, a malformed literal, or an out-of-int64-range value. -/
def goAtoi (s : String) : Option Int :=
  match parseDec s.data with
  | some v => if -(2 ^ 63) ≤ v ∧ v < 2 ^ 63 then some v else none
  | none => none

/-- SQLite comparison of the TEXT query parameter `s` with the INTEGER
column value `v` in `WHERE id = ?`: the column's INTEGER affinity
converts the text operand to a number, and a non-numeric text matches
no row. -/
def sqlIdMatch (s : String) (v : Int) : Bool :=
  decide (parseDec s.data = some v)

/-- Decimal digit character for `d < 10`. -/
def digitChar (d : Nat) : Char := Char.ofNat (48 + d)

/-- Decimal digits of `n`, most significant first (empty for 0). -/
def natDigits : Nat → List Char
  | 0 => []
  | n + 1 => natDigits ((n + 1) / 10) ++ [digitChar ((n + 1) % 10)]
decreasing_by exact Nat.div_lt_self (Nat.succ_pos n) (by norm_num)

/-- Decimal rendering of a natural number. -/
def natDec (n : Nat) : List Char := if n = 0 then ['0'] else natDigits n

/-- `fmt.Sprintf` with the `%d` verb: decimal rendering of an integer. -/
def intToDec (n : Int) : String :=
  if n < 0 then String.mk ('-' :: natDec n.natAbs) else String.mk (natDec n.natAbs)

/-- The data context the paginated variant hands to the index template
(`IndexPageData` struct). -/
structure IndexPageData where
  notes : List Note
  page : Int
  hasNext : Bool
  hasPrev : Bool
  nextPage : Int
  prevPage : Int
deriving DecidableEq

/-- Data handed to a template on a successful render. -/
inductive PageData
  | index (d : IndexPageData)
  | indexSimple (notes : List Note)
  | details (n : Note)
deriving DecidableEq

/-- An HTTP response a handler writes: a successful template render, a
see-other redirect, or one of the error responses the handlers use. -/
inductive HResponse
  | html (d : PageData)
  | seeOther (loc : String)
  | badRequest (msg : String)
  | notFound (msg : String)
  | methodNotAllowed (msg : String)
  | serverError (msg : String)
deriving DecidableEq

/-- HTTP status code of a response. -/
def HResponse.status : HResponse → Nat
  | .html _ => 200
  | .seeOther _ => 303
  | .badRequest _ => 400
  | .notFound _ => 404
  | .methodNotAllowed _ => 405
  | .serverError _ => 500

/-- `SELECT id, title, content FROM notes LIMIT lim OFFSET off` in the
table's natural (rowid) order.  Every call the code makes passes
non-negative arguments. -/
def DB.selectPage (db : DB) (lim off : Int) : List Note :=
  (db.rows.drop off.toNat).take lim.toNat

/-- `QueryRow("SELECT id, title, content FROM notes WHERE id = ?", id)`:
the first row the TEXT parameter matches; `none` stands for
`sql.ErrNoRows`. -/
def DB.queryRowById (db : DB) (idStr : String) : Option Note :=
  db.rows.find? (fun n => sqlIdMatch idStr n.id)

/-- `Exec("INSERT INTO notes (title, content) VALUES (?, ?)", t, c)`
followed by `LastInsertId` (which the modernc sqlite driver never
fails): the new row gets the next AUTOINCREMENT id, returned alongside
the new table state. -/
def DB.insertNote (db : DB) (title content : String) : DB × Int :=
  ({ rows := db.rows ++ [{ id := db.nextId, title := title, content := content }],
     nextId := db.nextId + 1 }, db.nextId)

/-- `Exec("DELETE FROM notes WHERE id = ?", id)`: the rows the
parameter does not match stay; the affected-row count is returned. -/
def DB.deleteById (db : DB) (idStr : String) : DB × Nat :=
  ({ db with rows := db.rows.filter (fun n => !sqlIdMatch idStr n.id) },
   (db.rows.filter (fun n => sqlIdMatch idStr n.id)).length)

/-- Outcome of `res.RowsAffected()`.  The true affected count is `cnt`;
when the driver reports an error `e`, Go's convention returns the zero
count alongside it.  The handlers discard the second component. -/
def rowsAffectedCall (raErr : Option String) (cnt : Nat) : Nat × Option String :=
  match raErr with
  | none => (cnt, none)
  | some e => (0, some e)

namespace Paginated

/-- `mainPage` of the paginated variant: parse `page` (default 1 on
parse failure or a value below 1), fetch `limit+1 = 2` rows at offset
`(page-1)*limit` with `limit = 1`, record `hasNext` when more than
`limit` rows came back and then truncate to `limit`, and render the
index template.  The straight-line 500-on-query-error branch carries no
claim and is not modelled. -/
def mainPage (db : DB) (pageStr : String) : HResponse :=
  let page : Int :=
    match goAtoi pageStr with
    | some p => if p < 1 then 1 else p
    | none => 1
  let limit : Int := 1
  let offset : Int := (page - 1) * limit
  let notes := db.selectPage (limit + 1) offset
  let hasNext := decide (limit.toNat < notes.length)
  let notes := if limit.toNat < notes.length then notes.take limit.toNat else notes
  .html (.index
    { notes := notes
      page := page
      hasNext := hasNext
      hasPrev := decide (1 < page)
      nextPage := page + 1
      prevPage := page - 1 })

/-- `detailPage` of the paginated variant.  `dbErr` is a storage error
other than `sql.ErrNoRows` reported for the lookup (`none` when storage
works); the successful-render error branch is identified with the
render itself. -/
def detailPage (db : DB) (idStr : String) (dbErr : Option String) : HResponse :=
  if idStr = "" then .badRequest "ID is required"
  else
    match dbErr with
    | some e => .serverError e
    | none =>
      match db.queryRowById idStr with
      | none => .notFound "Note not found"
      | some note => .html (.details note)

/-- `createNoteHandler` of the paginated variant.  `method` is
`r.Method`; `execErr` is a storage failure of the INSERT (`none` when
the insert succeeds; the driver's `LastInsertId` never fails). -/
def createNoteHandler (db : DB) (method title content : String)
    (execErr : Option String) : HResponse × DB :=
  if method ≠ "POST" then (.methodNotAllowed "Method not allowed", db)
  else if title = "" ∨ content = "" then
    (.badRequest "Title and content are required", db)
  else
    match execErr with
    | some e => (.serverError e, db)
    | none =>
      let r := db.insertNote title content
      (.seeOther ("/note?id=" ++ intToDec r.2), r.1)

/-- The SQL text of the update handler's statement. -/
def updateStmtSql : String := "UPDATE notes SET title = ?, content = ? WHERE id = ?"

/-- Number of `?` placeholders in a statement. -/
def placeholderCount (s : String) : Nat := (s.data.filter (fun c => c = '?')).length

/-- Number of arguments the update handler binds to its statement: only
`id`. -/
def updateStmtArgsBound : Nat := 1

/-- Result of `a.DB.Exec(updateStmtSql, id)`: database/sql checks the
driver's reported placeholder count against the argument list before
running anything, so the mismatched call fails with an argument-count
error and the statement never executes. -/
def updateExec : Except String Unit :=
  if placeholderCount updateStmtSql = updateStmtArgsBound then .ok ()
  else .error "sql: expected 3 arguments, got 1"

/-- The tail of `updateNoteHandler` after a successful Exec: `ra` is the
pair `res.RowsAffected()` returned, whose error component the code
discards (`rowsAffected, _ := res.RowsAffected()`); a zero count gives
404, otherwise a redirect to the listing route. -/
def updateAfterExec (db : DB) (ra : Nat × Option String) : HResponse × DB :=
  if ra.1 = 0 then (.notFound "Note not found", db)
  else (.seeOther "/", db)

/-- `updateNoteHandler` of the paginated variant.  It never reads
`title`/`content` from the request, and `updateExec` always fails
(three placeholders, one bound argument), so the `updateAfterExec` tail
is unreachable and the table is never changed. -/
def updateNoteHandler (db : DB) (idStr : String) : HResponse × DB :=
  if idStr = "" then (.badRequest "ID is required", db)
  else
    match updateExec with
    | .error e => (.serverError e, db)
    | .ok _ => updateAfterExec db (rowsAffectedCall none 0)

/-- `removeNoteHandler` of the paginated variant.  `execErr` is a
storage failure of the DELETE; `raErr` an error reported by
`res.RowsAffected()` (which the code discards; the modernc driver in
fact never reports one). -/
def removeNoteHandler (db : DB) (idStr : String)
    (execErr raErr : Option String) : HResponse × DB :=
  if idStr = "" then (.badRequest "ID is required", db)
  else
    match execErr with
    | some e => (.serverError e, db)
    | none =>
      let r := db.deleteById idStr
      let ra := rowsAffectedCall raErr r.2
      if ra.1 = 0 then (.notFound "Note not found", r.1)
      else (.seeOther "/", r.1)

end Paginated

namespace Simple

/-- `mainPage` of `src/main.go`: `SELECT * FROM notes`, render every
row with the index template. -/
def mainPage (db : DB) : HResponse := .html (.indexSimple db.rows)

/-- `noteDetailPage` of `src/main.go`; same structure as the paginated
variant's `detailPage`. -/
def noteDetailPage (db : DB) (idStr : String) (dbErr : Option String) : HResponse :=
  if idStr = "" then .badRequest "ID is required"
  else
    match dbErr with
    | some e => .serverError e
    | none =>
      match db.queryRowById idStr with
      | none => .notFound "Note not found"
      | some note => .html (.details note)

/-- `createNoteHandler` of `src/main.go`.  Unlike the paginated
variant, it performs no method check: `method` is carried only to
record that the handler ignores `r.Method`. -/
def createNoteHandler (db : DB) (method title content : String)
    (execErr : Option String) : HResponse × DB :=
  if title = "" ∨ content = "" then
    (.badRequest "Title and content are required", db)
  else
    match execErr with
    | some e => (.serverError e, db)
    | none =>
      let r := db.insertNote title content
      (.seeOther ("/note?id=" ++ intToDec r.2), r.1)

/-- `removeNoteHandler` of `src/main.go`; textually identical to the
paginated variant's. -/
def removeNoteHandler (db : DB) (idStr : String)
    (execErr raErr : Option String) : HResponse × DB :=
  if idStr = "" then (.badRequest "ID is required", db)
  else
    match execErr with
    | some e => (.serverError e, db)
    | none =>
      let r := db.deleteById idStr
      let ra := rowsAffectedCall raErr r.2
      if ra.1 = 0 then (.notFound "Note not found", r.1)
      else (.seeOther "/", r.1)

end Simple

/-- One state-changing request against the application (the simple
variant's create is listed separately since it carries no method
check).  Read-only handlers never touch the table. -/
inductive Request
  | create (method title content : String) (execErr : Option String)
  | createSimple (method title content : String) (execErr : Option String)
  | update (idStr : String)
  | remove (idStr : String) (execErr raErr : Option String)

/-- The table after serving one request. -/
def step (db : DB) : Request → DB
  | .create m t c e => (Paginated.createNoteHandler db m t c e).2
  | .createSimple m t c e => (Simple.createNoteHandler db m t c e).2
  | .update i => (Paginated.updateNoteHandler db i).2
  | .remove i e r => (Paginated.removeNoteHandler db i e r).2

/-- The table after serving a sequence of requests from a fresh
database. -/
def run (reqs : List Request) : DB := reqs.foldl step emptyDB

/-! ### Decimal print / parse lemmas -/

theorem digitsVal_go (l : List Char) (a : Nat) :
    l.foldl (fun a c => a * 10 + (c.toNat - 48)) a = a * 10 ^ l.length + digitsVal l := by
  induction l generalizing a with
  | nil => simp [digitsVal]
  | cons c t ih =>
    simp only [List.foldl_cons, List.length_cons]
    rw [ih (a * 10 + (c.toNat - 48))]
    have ht : digitsVal (c :: t) = (0 * 10 + (c.toNat - 48)) * 10 ^ t.length + digitsVal t :=
      ih (0 * 10 + (c.toNat - 48))
    rw [ht]
    ring

theorem digitsVal_append (l1 l2 : List Char) :
    digitsVal (l1 ++ l2) = digitsVal l1 * 10 ^ l2.length + digitsVal l2 := by
  simp only [digitsVal, List.foldl_append]
  exact digitsVal_go l2 _

theorem digitChar_isDigit (d : Nat) (h : d < 10) : (digitChar d).isDigit = true := by
  interval_cases d <;> decide

theorem digitChar_toNat (d : Nat) (h : d < 10) : (digitChar d).toNat = 48 + d := by
  interval_cases d <;> decide

theorem digitsVal_natDigits (n : Nat) : digitsVal (natDigits n) = n := by
  induction n using Nat.strong_induction_on with
  | _ n ih =>
    match n with
    | 0 => simp [natDigits, digitsVal]
    | m + 1 =>
      rw [natDigits, digitsVal_append]
      have hdiv : (m + 1) / 10 < m + 1 := Nat.div_lt_self (Nat.succ_pos m) (by norm_num)
      have h1 : digitsVal (natDigits ((m + 1) / 10)) = (m + 1) / 10 := ih _ hdiv
      have h2 : digitsVal [digitChar ((m + 1) % 10)] = (m + 1) % 10 := by
        have hm : (m + 1) % 10 < 10 := Nat.mod_lt _ (by norm_num)
        simp [digitsVal, digitChar_toNat _ hm]
      rw [h1, h2]
      simp only [List.length_singleton, pow_one]
      omega

theorem natDigits_all_digits (n : Nat) : (natDigits n).all Char.isDigit = true := by
  induction n using Nat.strong_induction_on with
  | _ n ih =>
    match n with
    | 0 => simp [natDigits]
    | m + 1 =>
      rw [natDigits, List.all_append]
      have hdiv : (m + 1) / 10 < m + 1 := Nat.div_lt_self (Nat.succ_pos m) (by norm_num)
      have hm : (m + 1) % 10 < 10 := Nat.mod_lt _ (by norm_num)
      rw [ih _ hdiv]
      simp [digitChar_isDigit _ hm]

theorem natDigits_ne_nil (n : Nat) (h : n ≠ 0) : natDigits n ≠ [] := by
  match n, h with
  | m + 1, _ =>
    rw [natDigits]
    simp

theorem natDec_ne_nil (n : Nat) : natDec n ≠ [] := by
  by_cases h : n = 0
  · subst h; decide
  · rw [natDec, if_neg h]; exact natDigits_ne_nil n h

theorem digitsVal_natDec (n : Nat) : digitsVal (natDec n) = n := by
  by_cases h : n = 0
  · subst h; decide
  · rw [natDec, if_neg h]; exact digitsVal_natDigits n

theorem allDigits_natDec (n : Nat) : allDigits (natDec n) = true := by
  have hne := natDec_ne_nil n
  have hall : (natDec n).all Char.isDigit = true := by
    by_cases h : n = 0
    · subst h; decide
    · rw [natDec, if_neg h]; exact natDigits_all_digits n
  unfold allDigits
  rw [hall]
  cases hE : (natDec n).isEmpty
  · rfl
  · exact absurd (List.isEmpty_iff.mp hE) hne

theorem parseDec_allDigits (l : List Char) (h : allDigits l = true) :
    parseDec l = some (digitsVal l : Int) := by
  match l with
  | [] => exact absurd h (by decide)
  | c :: rest =>
    have hcd : c.isDigit = true := by
      have h' := h
      unfold allDigits at h'
      simp only [Bool.and_eq_true, List.all_cons] at h'
      exact h'.2.1
    have hc1 : ¬ c = '+' := by
      intro hc; rw [hc] at hcd; exact absurd hcd (by decide)
    have hc2 : ¬ c = '-' := by
      intro hc; rw [hc] at hcd; exact absurd hcd (by decide)
    simp only [parseDec]
    rw [if_neg hc1, if_neg hc2, if_pos h]

theorem parseDec_natDec (n : Nat) : parseDec (natDec n) = some (n : Int) := by
  rw [parseDec_allDigits _ (allDigits_natDec n), digitsVal_natDec n]

theorem intToDec_data (n : Int) (h : 0 ≤ n) : (intToDec n).data = natDec n.natAbs := by
  unfold intToDec
  rw [if_neg (not_lt.mpr h)]

theorem parseDec_intToDec (n : Int) (h : 0 ≤ n) : parseDec (intToDec n).data = some n := by
  rw [intToDec_data n h, parseDec_natDec]
  simp [Int.natAbs_of_nonneg h]

theorem intToDec_ne_empty (n : Int) (h : 0 ≤ n) : intToDec n ≠ "" := by
  intro hEq
  have hd : (intToDec n).data = [] := by rw [hEq]
  rw [intToDec_data n h] at hd
  exact natDec_ne_nil _ hd

/-! ### Row lookup and deletion lemmas -/

theorem sqlIdMatch_true (s : String) (v : Int) (h : sqlIdMatch s v = true) :
    parseDec s.data = some v :=
  of_decide_eq_true h

theorem sqlIdMatch_of_parse (s : String) (v : Int) (h : parseDec s.data = some v) :
    sqlIdMatch s v = true :=
  decide_eq_true (by rw [h])

theorem find?_append_new (s : String) (v : Int) (new : Note) (l : List Note)
    (hs : parseDec s.data = some v) (hnew : new.id = v)
    (h : ∀ n ∈ l, n.id ≠ v) :
    (l ++ [new]).find? (fun n => sqlIdMatch s n.id) = some new := by
  induction l with
  | nil =>
    have hp : sqlIdMatch s new.id = true := sqlIdMatch_of_parse s new.id (by rw [hnew, hs])
    rw [List.nil_append]
    exact List.find?_cons_of_pos _ hp
  | cons hd tl ih =>
    have hne : sqlIdMatch s hd.id = false := by
      cases hb : sqlIdMatch s hd.id
      · rfl
      · have e1 := sqlIdMatch_true s hd.id hb
        rw [hs] at e1
        exact absurd (Option.some_inj.mp e1).symm (h hd (List.mem_cons_self hd tl))
    rw [List.cons_append, List.find?_cons_of_neg _ (by rw [hne]; exact Bool.false_ne_true)]
    exact ih (fun n hn => h n (List.mem_cons_of_mem hd hn))

theorem id_eq_of_match (s : String) (r n : Note)
    (hm : sqlIdMatch s r.id = true) (hn : sqlIdMatch s n.id = true) : n.id = r.id := by
  have e1 := sqlIdMatch_true s r.id hm
  have e2 := sqlIdMatch_true s n.id hn
  rw [e1] at e2
  exact (Option.some_inj.mp e2).symm

theorem head_no_match (s : String) (r hd : Note) (tl : List Note)
    (hm : sqlIdMatch s r.id = true) (hr : r ∈ tl)
    (hnotmem : hd.id ∉ tl.map Note.id) :
    sqlIdMatch s hd.id = false := by
  cases hb : sqlIdMatch s hd.id
  · rfl
  · have : hd.id = r.id := id_eq_of_match s r hd hm hb
    exact absurd (this ▸ List.mem_map_of_mem Note.id hr) hnotmem

theorem find?_unique (s : String) (r : Note) (l : List Note)
    (hr : r ∈ l) (hm : sqlIdMatch s r.id = true)
    (hnd : (l.map Note.id).Nodup) :
    l.find? (fun n => sqlIdMatch s n.id) = some r := by
  induction l with
  | nil => cases hr
  | cons hd tl ih =>
    rw [List.map_cons, List.nodup_cons] at hnd
    rcases List.mem_cons.mp hr with h | h
    · subst h
      exact List.find?_cons_of_pos _ hm
    · have hne := head_no_match s r hd tl hm h hnd.1
      rw [List.find?_cons_of_neg _ (by rw [hne]; exact Bool.false_ne_true)]
      exact ih h hnd.2

theorem tail_no_match (s : String) (r : Note) (tl : List Note)
    (hm : sqlIdMatch s r.id = true) (hnotmem : r.id ∉ tl.map Note.id) :
    ∀ n ∈ tl, sqlIdMatch s n.id = false := by
  intro n hn
  cases hb : sqlIdMatch s n.id
  · rfl
  · have : n.id = r.id := id_eq_of_match s r n hm hb
    exact absurd (this ▸ List.mem_map_of_mem Note.id hn) hnotmem

theorem filter_no_match (s : String) (l : List Note)
    (h : ∀ n ∈ l, sqlIdMatch s n.id = false) :
    l.filter (fun n => !sqlIdMatch s n.id) = l :=
  List.filter_eq_self.mpr (fun n hn => by rw [h n hn]; rfl)

theorem filter_match_nil (s : String) (l : List Note)
    (h : ∀ n ∈ l, sqlIdMatch s n.id = false) :
    l.filter (fun n => sqlIdMatch s n.id) = [] :=
  List.filter_eq_nil_iff.mpr (fun n hn => by rw [h n hn]; exact Bool.false_ne_true)

theorem filter_not_match_eq_erase (s : String) (r : Note) (l : List Note)
    (hm : sqlIdMatch s r.id = true) (hr : r ∈ l)
    (hnd : (l.map Note.id).Nodup) :
    l.filter (fun n => !sqlIdMatch s n.id) = l.erase r := by
  induction l with
  | nil => cases hr
  | cons hd tl ih =>
    rw [List.map_cons, List.nodup_cons] at hnd
    rcases List.mem_cons.mp hr with h | h
    · subst h
      rw [List.erase_cons_head]
      rw [List.filter_cons_of_neg (by rw [hm]; decide)]
      exact filter_no_match s tl (tail_no_match s r tl hm hnd.1)
    · have hne := head_no_match s r hd tl hm h hnd.1
      have hdr : hd ≠ r := by
        intro hEq
        exact absurd (hEq ▸ List.mem_map_of_mem Note.id h) hnd.1
      rw [List.filter_cons_of_pos (by rw [hne]; rfl)]
      rw [List.erase_cons_tail, ih h hnd.2]
      simp [hdr]

theorem match_count_pos (s : String) (r : Note) (l : List Note)
    (hm : sqlIdMatch s r.id = true) (hr : r ∈ l) :
    (l.filter (fun n => sqlIdMatch s n.id)).length ≠ 0 := by
  have : r ∈ l.filter (fun n => sqlIdMatch s n.id) := List.mem_filter.mpr ⟨hr, hm⟩
  intro hlen
  rw [List.length_eq_zero] at hlen
  rw [hlen] at this
  cases this

/-! ### Handler state helpers -/

theorem update_state (db : DB) (idStr : String) :
    (Paginated.updateNoteHandler db idStr).2 = db := by
  unfold Paginated.updateNoteHandler
  split
  · rfl
  · rfl

theorem update_response (db : DB) (idStr : String) :
    (Paginated.updateNoteHandler db idStr).1 = .badRequest "ID is required" ∨
    (Paginated.updateNoteHandler db idStr).1 =
      .serverError "sql: expected 3 arguments, got 1" := by
  unfold Paginated.updateNoteHandler
  split
  · exact Or.inl rfl
  · exact Or.inr rfl

theorem remove_state (db : DB) (idStr : String) (execErr raErr : Option String) :
    (Paginated.removeNoteHandler db idStr execErr raErr).2 = db ∨
    (Paginated.removeNoteHandler db idStr execErr raErr).2 = (db.deleteById idStr).1 := by
  unfold Paginated.removeNoteHandler
  split
  · exact Or.inl rfl
  · cases execErr with
    | some e => exact Or.inl rfl
    | none =>
      simp only
      split
      · exact Or.inr rfl
      · exact Or.inr rfl

theorem create_state (db : DB) (method title content : String) (execErr : Option String) :
    (Paginated.createNoteHandler db method title content execErr).2 = db ∨
    (title ≠ "" ∧ content ≠ "" ∧
      (Paginated.createNoteHandler db method title content execErr).2 =
        (db.insertNote title content).1) := by
  unfold Paginated.createNoteHandler
  split
  · exact Or.inl rfl
  · split
    · exact Or.inl rfl
    · next hguard =>
      push_neg at hguard
      cases execErr with
      | some e => exact Or.inl rfl
      | none => exact Or.inr ⟨hguard.1, hguard.2, rfl⟩

theorem create_state_simple (db : DB) (method title content : String) (execErr : Option String) :
    (Simple.createNoteHandler db method title content execErr).2 = db ∨
    (title ≠ "" ∧ content ≠ "" ∧
      (Simple.createNoteHandler db method title content execErr).2 =
        (db.insertNote title content).1) := by
  unfold Simple.createNoteHandler
  split
  · exact Or.inl rfl
  · next hguard =>
    push_neg at hguard
    cases execErr with
    | some e => exact Or.inl rfl
    | none => exact Or.inr ⟨hguard.1, hguard.2, rfl⟩

/-- The invariant of C8: every stored note has a non-empty title and a
non-empty content. -/
def ValidNotes (db : DB) : Prop := ∀ n ∈ db.rows, n.title ≠ "" ∧ n.content ≠ ""

theorem validNotes_insert (db : DB) (t c : String) (ht : t ≠ "") (hc : c ≠ "")
    (h : ValidNotes db) : ValidNotes (db.insertNote t c).1 := by
  intro n hn
  rcases List.mem_append.mp hn with h1 | h1
  · exact h n h1
  · rw [List.mem_singleton] at h1
    subst h1
    exact ⟨ht, hc⟩

theorem validNotes_delete (db : DB) (s : String) (h : ValidNotes db) :
    ValidNotes (db.deleteById s).1 := by
  intro n hn
  exact h n (List.mem_of_mem_filter hn)

theorem step_valid (db : DB) (r : Request) (h : ValidNotes db) :
    ValidNotes (step db r) := by
  cases r with
  | create m t c e =>
    simp only [step]
    rcases create_state db m t c e with hs | ⟨ht, hc, hs⟩ <;> rw [hs]
    · exact h
    · exact validNotes_insert db t c ht hc h
  | createSimple m t c e =>
    simp only [step]
    rcases create_state_simple db m t c e with hs | ⟨ht, hc, hs⟩ <;> rw [hs]
    · exact h
    · exact validNotes_insert db t c ht hc h
  | update i =>
    simp only [step]
    rw [update_state db i]
    exact h
  | remove i e r =>
    simp only [step]
    rcases remove_state db i e r with hs | hs <;> rw [hs]
    · exact h
    · exact validNotes_delete db i h

/-! ### Claim theorems -/

/-- C1: the paginated listing handler parses `page` as a positive
integer defaulting to 1 on absence or parse failure, fetches `limit+1`
rows (limit = 1) at offset `(page-1)*limit`, truncates to `limit` rows,
sets has-next exactly when more than `limit` rows were returned and
has-prev exactly when `page > 1`; with exactly 3 stored notes, page 1
yields note 1 (has-next, no has-prev), page 2 yields note 2 (both), and
page 3 yields note 3 (has-prev only). -/
theorem claim_C1_listing_pagination :
    (∀ (db : DB) (ps : String), ∃ d : IndexPageData,
        Paginated.mainPage db ps = .html (.index d) ∧
        d.page = (match goAtoi ps with
                  | some p => if p < 1 then 1 else p
                  | none => 1) ∧
        1 ≤ d.page ∧
        d.notes = (db.rows.drop (d.page - 1).toNat).take 1 ∧
        (d.hasNext = true ↔ d.page.toNat < db.rows.length) ∧
        (d.hasPrev = true ↔ 1 < d.page)) ∧
    (∀ a b c : Note,
        Paginated.mainPage { rows := [a, b, c], nextId := 4 } "1" =
          .html (.index { notes := [a], page := 1, hasNext := true,
                          hasPrev := false, nextPage := 2, prevPage := 0 }) ∧
        Paginated.mainPage { rows := [a, b, c], nextId := 4 } "2" =
          .html (.index { notes := [b], page := 2, hasNext := true,
                          hasPrev := true, nextPage := 3, prevPage := 1 }) ∧
        Paginated.mainPage { rows := [a, b, c], nextId := 4 } "3" =
          .html (.index { notes := [c], page := 3, hasNext := false,
                          hasPrev := true, nextPage := 4, prevPage := 2 })) := by
  constructor
  · intro db ps
    have h1p : 1 ≤ (match goAtoi ps with
        | some q => if q < 1 then 1 else q
        | none => (1:Int)) := by
      cases goAtoi ps with
      | none => exact le_refl 1
      | some q => dsimp only; split <;> omega
    simp only [Paginated.mainPage, DB.selectPage]
    refine ⟨_, rfl, rfl, h1p, ?_, ?_, ?_⟩
    · generalize (match goAtoi ps with
        | some q => if q < 1 then 1 else q
        | none => (1:Int)) = P at h1p ⊢
      simp only [Int.toNat_one, Int.toNat_ofNat, mul_one]
      split_ifs with h
      · rw [List.take_take]
        norm_num
      · rw [List.length_take, List.length_drop] at h
        have hle2 : (List.drop (P - 1).toNat db.rows).length ≤ ((1:Int) + 1).toNat := by
          rw [List.length_drop]; omega
        have hle1 : (List.drop (P - 1).toNat db.rows).length ≤ 1 := by
          rw [List.length_drop]; omega
        rw [List.take_of_length_le hle2, List.take_of_length_le hle1]
    · generalize (match goAtoi ps with
        | some q => if q < 1 then 1 else q
        | none => (1:Int)) = P at h1p ⊢
      rw [decide_eq_true_iff]
      simp only [List.length_take, List.length_drop, Int.toNat_one, Int.toNat_ofNat, mul_one]
      omega
    · exact decide_eq_true_iff
  · intro a b c
    exact ⟨rfl, rfl, rfl⟩

/-- C2 counterexample: the update statement of the paginated variant
has three `?` placeholders, not two as the claim states. -/
theorem claim_C2_counterexample :
    Paginated.placeholderCount Paginated.updateStmtSql = 3 ∧
    Paginated.placeholderCount Paginated.updateStmtSql ≠ 2 := by
  constructor <;> decide

/-- C2 (amended): the update handler binds only the `id` parameter to a
THREE-placeholder statement, so every update request either is rejected
(empty id) or fails with an argument-count error, and no row's title or
content is ever changed. -/
theorem claim_C2_update_defect :
    Paginated.placeholderCount Paginated.updateStmtSql = 3 ∧
    Paginated.updateStmtArgsBound = 1 ∧
    ∀ (db : DB) (idStr : String),
      (Paginated.updateNoteHandler db idStr).2 = db ∧
      ((Paginated.updateNoteHandler db idStr).1 = .badRequest "ID is required" ∨
       (Paginated.updateNoteHandler db idStr).1 =
         .serverError "sql: expected 3 arguments, got 1") :=
  ⟨by decide, rfl, fun db idStr => ⟨update_state db idStr, update_response db idStr⟩⟩

/-- C3: in both variants, a POST to the create handler with non-empty
title and content whose insert succeeds persists exactly one new row
holding the submitted values and responds with a see-other redirect to
`/note?id=N` for the newly generated id `N`. -/
theorem claim_C3_create_success :
    ∀ (db : DB) (method title content : String),
      method = "POST" → title ≠ "" → content ≠ "" →
      Paginated.createNoteHandler db method title content none =
        (.seeOther ("/note?id=" ++ intToDec db.nextId),
         { rows := db.rows ++ [{ id := db.nextId, title := title, content := content }],
           nextId := db.nextId + 1 }) ∧
      Simple.createNoteHandler db method title content none =
        (.seeOther ("/note?id=" ++ intToDec db.nextId),
         { rows := db.rows ++ [{ id := db.nextId, title := title, content := content }],
           nextId := db.nextId + 1 }) := by
  intro db method title content hm ht hc
  subst hm
  constructor
  · unfold Paginated.createNoteHandler
    rw [if_neg (by decide), if_neg (not_or.mpr ⟨ht, hc⟩)]
    rfl
  · unfold Simple.createNoteHandler
    rw [if_neg (not_or.mpr ⟨ht, hc⟩)]
    rfl

/-- C3 witness: the theorem applied to a fresh database and the fields
"a"/"b". -/
theorem claim_C3_witness :
    Paginated.createNoteHandler emptyDB "POST" "a" "b" none =
      (.seeOther ("/note?id=" ++ intToDec emptyDB.nextId),
       { rows := emptyDB.rows ++ [{ id := emptyDB.nextId, title := "a", content := "b" }],
         nextId := emptyDB.nextId + 1 }) ∧
    Simple.createNoteHandler emptyDB "POST" "a" "b" none =
      (.seeOther ("/note?id=" ++ intToDec emptyDB.nextId),
       { rows := emptyDB.rows ++ [{ id := emptyDB.nextId, title := "a", content := "b" }],
         nextId := emptyDB.nextId + 1 }) :=
  claim_C3_create_success emptyDB "POST" "a" "b" rfl (by decide) (by decide)

/-- C4: in both variants, a create request with an empty title or an
empty content field gets a 4xx response and leaves the table
unchanged. -/
theorem claim_C4_create_empty_rejected :
    ∀ (db : DB) (method title content : String) (execErr : Option String),
      title = "" ∨ content = "" →
      (400 ≤ (Paginated.createNoteHandler db method title content execErr).1.status ∧
       (Paginated.createNoteHandler db method title content execErr).1.status < 500 ∧
       (Paginated.createNoteHandler db method title content execErr).2 = db) ∧
      (400 ≤ (Simple.createNoteHandler db method title content execErr).1.status ∧
       (Simple.createNoteHandler db method title content execErr).1.status < 500 ∧
       (Simple.createNoteHandler db method title content execErr).2 = db) := by
  intro db method title content execErr h
  constructor
  · unfold Paginated.createNoteHandler
    by_cases hm : method ≠ "POST"
    · rw [if_pos hm]
      exact ⟨by norm_num [HResponse.status], by norm_num [HResponse.status], rfl⟩
    · rw [if_neg hm, if_pos h]
      exact ⟨by norm_num [HResponse.status], by norm_num [HResponse.status], rfl⟩
  · unfold Simple.createNoteHandler
    rw [if_pos h]
    exact ⟨by norm_num [HResponse.status], by norm_num [HResponse.status], rfl⟩

/-- C4 witness: the theorem applied to a POST with an empty title on a
fresh database. -/
theorem claim_C4_witness :
    (("" : String) = "" ∨ ("b" : String) = "") ∧
    400 ≤ (Paginated.createNoteHandler emptyDB "POST" "" "b" none).1.status ∧
    (Paginated.createNoteHandler emptyDB "POST" "" "b" none).1.status < 500 ∧
    (Paginated.createNoteHandler emptyDB "POST" "" "b" none).2 = emptyDB :=
  ⟨Or.inl rfl,
   (claim_C4_create_empty_rejected emptyDB "POST" "" "b" none (Or.inl rfl)).1.1,
   (claim_C4_create_empty_rejected emptyDB "POST" "" "b" none (Or.inl rfl)).1.2.1,
   (claim_C4_create_empty_rejected emptyDB "POST" "" "b" none (Or.inl rfl)).1.2.2⟩

/-- C5 counterexample: the simple variant's create handler performs no
method check, so a GET request with valid fields is NOT answered with
method-not-allowed and DOES insert a row, refuting the claim for that
variant. -/
theorem claim_C5_counterexample :
    Simple.createNoteHandler emptyDB "GET" "a" "b" none =
      (.seeOther ("/note?id=" ++ intToDec 1),
       { rows := [{ id := 1, title := "a", content := "b" }], nextId := 2 }) ∧
    (Simple.createNoteHandler emptyDB "GET" "a" "b" none).1.status ≠ 405 := by
  constructor
  · unfold Simple.createNoteHandler
    rw [if_neg (by decide)]
    rfl
  · unfold Simple.createNoteHandler
    rw [if_neg (by decide)]
    norm_num [HResponse.status]

/-- C5 (amended): only the paginated variant's create handler rejects
non-POST methods (method-not-allowed, no insert); the simple variant's
create handler ignores the request method entirely. -/
theorem claim_C5_amended :
    ∀ (db : DB) (method title content : String) (execErr : Option String),
      (method ≠ "POST" →
        Paginated.createNoteHandler db method title content execErr =
          (.methodNotAllowed "Method not allowed", db)) ∧
      Simple.createNoteHandler db method title content execErr =
        Simple.createNoteHandler db "POST" title content execErr := by
  intro db method title content execErr
  constructor
  · intro hm
    unfold Paginated.createNoteHandler
    rw [if_pos hm]
  · rfl

/-- C5 witness: the amended theorem applied to a GET request on a fresh
database. -/
theorem claim_C5_witness :
    (("GET" : String) ≠ "POST") ∧
    Paginated.createNoteHandler emptyDB "GET" "a" "b" none =
      (.methodNotAllowed "Method not allowed", emptyDB) :=
  ⟨by decide, (claim_C5_amended emptyDB "GET" "a" "b" none).1 (by decide)⟩

/-- C6: in both variants the detail handler answers an empty `id` with
a client error, a storage error with a generic server error, an id that
matches no row with not-found, and otherwise renders the detail
template with exactly the single matching note. -/
theorem claim_C6_detail_handler :
    ∀ (db : DB) (idStr : String) (dbErr : Option String),
      (idStr = "" →
        Paginated.detailPage db idStr dbErr = .badRequest "ID is required" ∧
        Simple.noteDetailPage db idStr dbErr = .badRequest "ID is required") ∧
      (idStr ≠ "" → ∀ e, dbErr = some e →
        Paginated.detailPage db idStr dbErr = .serverError e ∧
        Simple.noteDetailPage db idStr dbErr = .serverError e) ∧
      (idStr ≠ "" → dbErr = none → (∀ n ∈ db.rows, sqlIdMatch idStr n.id = false) →
        Paginated.detailPage db idStr dbErr = .notFound "Note not found" ∧
        Simple.noteDetailPage db idStr dbErr = .notFound "Note not found") ∧
      (idStr ≠ "" → dbErr = none → (db.rows.map Note.id).Nodup →
        ∀ r ∈ db.rows, sqlIdMatch idStr r.id = true →
          Paginated.detailPage db idStr dbErr = .html (.details r) ∧
          Simple.noteDetailPage db idStr dbErr = .html (.details r)) := by
  intro db idStr dbErr
  refine ⟨?_, ?_, ?_, ?_⟩
  · intro h
    exact ⟨by unfold Paginated.detailPage; rw [if_pos h],
           by unfold Simple.noteDetailPage; rw [if_pos h]⟩
  · intro h e he
    subst he
    exact ⟨by unfold Paginated.detailPage; rw [if_neg h],
           by unfold Simple.noteDetailPage; rw [if_neg h]⟩
  · intro h hn hmatch
    have hfind : db.queryRowById idStr = none :=
      List.find?_eq_none.mpr
        (fun n hn' => by rw [hmatch n hn']; exact Bool.false_ne_true)
    subst hn
    exact ⟨by unfold Paginated.detailPage; rw [if_neg h]; simp only [hfind],
           by unfold Simple.noteDetailPage; rw [if_neg h]; simp only [hfind]⟩
  · intro h hn hnd r hr hm
    have hfind : db.queryRowById idStr = some r := find?_unique idStr r db.rows hr hm hnd
    subst hn
    exact ⟨by unfold Paginated.detailPage; rw [if_neg h]; simp only [hfind],
           by unfold Simple.noteDetailPage; rw [if_neg h]; simp only [hfind]⟩

/-- C6 witness: the theorem applied to a one-note database for the
empty, missing and matching id cases. -/
theorem claim_C6_witness :
    Paginated.detailPage { rows := [{ id := 1, title := "a", content := "b" }], nextId := 2 }
        "" none = .badRequest "ID is required" ∧
    Paginated.detailPage { rows := [{ id := 1, title := "a", content := "b" }], nextId := 2 }
        "7" none = .notFound "Note not found" ∧
    Paginated.detailPage { rows := [{ id := 1, title := "a", content := "b" }], nextId := 2 }
        "1" none = .html (.details { id := 1, title := "a", content := "b" }) :=
  ⟨((claim_C6_detail_handler
      { rows := [{ id := 1, title := "a", content := "b" }], nextId := 2 } "" none).1 rfl).1,
   ((claim_C6_detail_handler
      { rows := [{ id := 1, title := "a", content := "b" }], nextId := 2 } "7" none).2.2.1
      (by decide) rfl (by decide)).1,
   ((claim_C6_detail_handler
      { rows := [{ id := 1, title := "a", content := "b" }], nextId := 2 } "1" none).2.2.2
      (by decide) rfl (by decide) { id := 1, title := "a", content := "b" }
      (by decide) (by decide)).1⟩

/-- C7: in both variants the remove handler with a non-empty id answers
not-found and leaves the table unchanged when no row matches, and when
a row matches it deletes exactly that row, leaves every other row
unchanged, and redirects to the listing route. -/
theorem claim_C7_remove_handler :
    ∀ (db : DB) (idStr : String), idStr ≠ "" →
      ((∀ n ∈ db.rows, sqlIdMatch idStr n.id = false) →
        Paginated.removeNoteHandler db idStr none none = (.notFound "Note not found", db) ∧
        Simple.removeNoteHandler db idStr none none = (.notFound "Note not found", db)) ∧
      ((db.rows.map Note.id).Nodup →
        ∀ r ∈ db.rows, sqlIdMatch idStr r.id = true →
          Paginated.removeNoteHandler db idStr none none =
            (.seeOther "/", { db with rows := db.rows.erase r }) ∧
          Simple.removeNoteHandler db idStr none none =
            (.seeOther "/", { db with rows := db.rows.erase r })) := by
  intro db idStr h
  constructor
  · intro hmatch
    constructor
    · unfold Paginated.removeNoteHandler
      rw [if_neg h]
      simp only [DB.deleteById, rowsAffectedCall]
      rw [filter_match_nil idStr db.rows hmatch, filter_no_match idStr db.rows hmatch]
      rfl
    · unfold Simple.removeNoteHandler
      rw [if_neg h]
      simp only [DB.deleteById, rowsAffectedCall]
      rw [filter_match_nil idStr db.rows hmatch, filter_no_match idStr db.rows hmatch]
      rfl
  · intro hnd r hr hm
    have hcount := match_count_pos idStr r db.rows hm hr
    have hrows := filter_not_match_eq_erase idStr r db.rows hm hr hnd
    constructor
    · unfold Paginated.removeNoteHandler
      rw [if_neg h]
      simp only [DB.deleteById, rowsAffectedCall]
      rw [hrows, if_neg hcount]
    · unfold Simple.removeNoteHandler
      rw [if_neg h]
      simp only [DB.deleteById, rowsAffectedCall]
      rw [hrows, if_neg hcount]

/-- C7 witness: the theorem applied to a one-note database for a
missing id and for the stored id. -/
theorem claim_C7_witness :
    Paginated.removeNoteHandler { rows := [{ id := 1, title := "a", content := "b" }], nextId := 2 }
        "7" none none =
      (.notFound "Note not found",
       { rows := [{ id := 1, title := "a", content := "b" }], nextId := 2 }) ∧
    Paginated.removeNoteHandler { rows := [{ id := 1, title := "a", content := "b" }], nextId := 2 }
        "1" none none =
      (.seeOther "/", { rows := [], nextId := 2 }) :=
  ⟨((claim_C7_remove_handler
      { rows := [{ id := 1, title := "a", content := "b" }], nextId := 2 } "7"
      (by decide)).1 (by decide)).1,
   ((claim_C7_remove_handler
      { rows := [{ id := 1, title := "a", content := "b" }], nextId := 2 } "1"
      (by decide)).2 (by decide) { id := 1, title := "a", content := "b" }
      (by decide) (by decide)).1⟩

/-- C8: starting from an empty table, after any sequence of create,
update and remove requests every persisted note has a non-empty title
and a non-empty content. -/
theorem claim_C8_nonempty_invariant :
    ∀ (reqs : List Request) (n : Note),
      n ∈ (run reqs).rows → n.title ≠ "" ∧ n.content ≠ "" := by
  intro reqs
  have hbase : ValidNotes emptyDB := fun n hn => absurd hn (List.not_mem_nil n)
  have h : ValidNotes (run reqs) := by
    unfold run
    generalize emptyDB = db0 at hbase ⊢
    induction reqs generalizing db0 with
    | nil => exact hbase
    | cons r t ih => exact ih (step db0 r) (step_valid db0 r hbase)
  exact fun n hn => h n hn

/-- C8 witness: the theorem applied to a single valid create request
and the row it inserts. -/
theorem claim_C8_witness :
    ({ id := 1, title := "a", content := "b" } : Note) ∈
      (run [Request.create "POST" "a" "b" none]).rows ∧
    ({ id := 1, title := "a", content := "b" } : Note).title ≠ "" ∧
    ({ id := 1, title := "a", content := "b" } : Note).content ≠ "" :=
  ⟨by decide,
   claim_C8_nonempty_invariant [Request.create "POST" "a" "b" none]
     { id := 1, title := "a", content := "b" } (by decide)⟩

/-- C9: creating a note with non-empty fields and fetching it via the
detail handler with the id carried by the create redirect yields a note
whose title and content equal the submitted values. -/
theorem claim_C9_round_trip :
    ∀ (db : DB) (title content : String),
      db.WF → title ≠ "" → content ≠ "" →
      (Paginated.createNoteHandler db "POST" title content none).1 =
        .seeOther ("/note?id=" ++ intToDec db.nextId) ∧
      Paginated.detailPage (Paginated.createNoteHandler db "POST" title content none).2
          (intToDec db.nextId) none =
        .html (.details { id := db.nextId, title := title, content := content }) := by
  intro db title content hWF ht hc
  obtain ⟨h1, hlt, _⟩ := hWF
  have h0 : (0:Int) ≤ db.nextId := by omega
  have hhandler : Paginated.createNoteHandler db "POST" title content none =
      (.seeOther ("/note?id=" ++ intToDec db.nextId),
       { rows := db.rows ++ [{ id := db.nextId, title := title, content := content }],
         nextId := db.nextId + 1 }) := by
    unfold Paginated.createNoteHandler
    rw [if_neg (by decide), if_neg (not_or.mpr ⟨ht, hc⟩)]
    rfl
  refine ⟨by rw [hhandler], ?_⟩
  rw [hhandler]
  have hq : DB.queryRowById
      { rows := db.rows ++ [{ id := db.nextId, title := title, content := content }],
        nextId := db.nextId + 1 } (intToDec db.nextId) =
      some { id := db.nextId, title := title, content := content } := by
    unfold DB.queryRowById
    exact find?_append_new (intToDec db.nextId) db.nextId _ db.rows
      (parseDec_intToDec db.nextId h0) rfl
      (fun n hn => by have := hlt n hn; omega)
  unfold Paginated.detailPage
  rw [if_neg (intToDec_ne_empty db.nextId h0)]
  simp only [hq]

/-- C9 witness: the theorem applied to a fresh database and the fields
"a"/"b". -/
theorem claim_C9_witness :
    (Paginated.createNoteHandler emptyDB "POST" "a" "b" none).1 =
      .seeOther ("/note?id=" ++ intToDec emptyDB.nextId) ∧
    Paginated.detailPage (Paginated.createNoteHandler emptyDB "POST" "a" "b" none).2
        (intToDec emptyDB.nextId) none =
      .html (.details { id := emptyDB.nextId, title := "a", content := "b" }) :=
  claim_C9_round_trip emptyDB "a" "b"
    ⟨le_refl 1, fun n hn => absurd hn (List.not_mem_nil n), List.nodup_nil⟩
    (by decide) (by decide)

/-- C10: the remove handlers of both variants (and the tail of the
paginated update handler after its Exec) discard the error returned by
`RowsAffected`; when that call reports an error the affected-row count
is taken to be zero and the handler responds not-found (404) — not a
server error — even though the DELETE itself already ran. -/
theorem claim_C10_rows_affected_error_discarded :
    ∀ (db : DB) (idStr : String) (e : String), idStr ≠ "" →
      (Paginated.removeNoteHandler db idStr none (some e) =
        (.notFound "Note not found", (db.deleteById idStr).1) ∧
       (Paginated.removeNoteHandler db idStr none (some e)).1.status = 404) ∧
      (Simple.removeNoteHandler db idStr none (some e) =
        (.notFound "Note not found", (db.deleteById idStr).1) ∧
       (Simple.removeNoteHandler db idStr none (some e)).1.status = 404) ∧
      (∀ cnt : Nat,
        Paginated.updateAfterExec db (rowsAffectedCall (some e) cnt) =
          (.notFound "Note not found", db)) := by
  intro db idStr e h
  have hpag : Paginated.removeNoteHandler db idStr none (some e) =
      (.notFound "Note not found", (db.deleteById idStr).1) := by
    unfold Paginated.removeNoteHandler
    rw [if_neg h]
    rfl
  have hsim : Simple.removeNoteHandler db idStr none (some e) =
      (.notFound "Note not found", (db.deleteById idStr).1) := by
    unfold Simple.removeNoteHandler
    rw [if_neg h]
    rfl
  exact ⟨⟨hpag, by rw [hpag]; rfl⟩, ⟨hsim, by rw [hsim]; rfl⟩, fun cnt => rfl⟩

/-- C10 witness: the theorem applied to a one-note database whose
delete succeeds while `RowsAffected` reports an error: the row is gone
yet the response is 404. -/
theorem claim_C10_witness :
    Paginated.removeNoteHandler { rows := [{ id := 1, title := "a", content := "b" }], nextId := 2 }
        "1" none (some "boom") =
      (.notFound "Note not found", { rows := [], nextId := 2 }) ∧
    Paginated.updateAfterExec { rows := [{ id := 1, title := "a", content := "b" }], nextId := 2 }
        (rowsAffectedCall (some "boom") 1) =
      (.notFound "Note not found",
       { rows := [{ id := 1, title := "a", content := "b" }], nextId := 2 }) :=
  ⟨((claim_C10_rows_affected_error_discarded
      { rows := [{ id := 1, title := "a", content := "b" }], nextId := 2 } "1" "boom"
      (by decide)).1).1,
   (claim_C10_rows_affected_error_discarded
      { rows := [{ id := 1, title := "a", content := "b" }], nextId := 2 } "1" "boom"
      (by decide)).2.2 1⟩

end NotesApp
